import Mathlib

/-!
Verification development for the alerts detection system repository.

The Python sources (`modules/preprocess.py`, `modules/alert_detector.py`)
are embedded shallowly: a pandas metric column becomes a `List (Option ℚ)`
(`none` is a missing value / NaN), Python floats are modelled as rationals,
and the per-metric loop of `get_alerts_table` becomes a fold over an
explicit run state that also carries the Python local variables which
survive from one loop iteration to the next.
-/

namespace Alerts

/-- Embedding of `data[m].rolling(window = 7, min_periods = 1).mean()` at
position `i` (modules/preprocess.py, line 29): the mean of the non-missing
values among positions `max 0 (i-6) .. i` of the column, and `none` (NaN)
when that window holds no non-missing value. -/
def rollingMean7 (xs : List (Option ℚ)) (i : ℕ) : Option ℚ :=
  let vals := ((xs.take (i + 1)).drop (i - 6)).filterMap id
  if vals = [] then none else some (vals.sum / (vals.length : ℚ))

/-- Python's built-in `round` and pandas `.round()`: round to the nearest
integer, ties to the even integer. -/
def pyRound (q : ℚ) : ℤ :=
  if q - ⌊q⌋ < 1/2 then ⌊q⌋
  else if 1/2 < q - ⌊q⌋ then ⌊q⌋ + 1
  else if ⌊q⌋ % 2 = 0 then ⌊q⌋ else ⌊q⌋ + 1

/-- The `moving_avg` value substituted at position `i`
(modules/preprocess.py, lines 29-33): the rolling mean, with NaN replaced
by 0 (`fillna(0)`), rounded to an integer when the column dtype is the
nullable integer dtype (`isInt` embeds `data[m].dtypes == 'Int64'`). -/
def moving_avg_val (isInt : Bool) (xs : List (Option ℚ)) (i : ℕ) : ℚ :=
  let mv := (rollingMean7 xs i).getD 0
  if isInt then (pyRound mv : ℚ) else mv

/-- Embedding of `Preprocess.fill_moving_avg` on one metric column
(modules/preprocess.py, lines 27-41): `np.where(data[m].isna(),
data['moving_avg'], data[m])` keeps every present value and substitutes
the (zero-filled) rolling mean at every missing position. -/
def fill_moving_avg_col (isInt : Bool) (xs : List (Option ℚ)) : List ℚ :=
  (List.range xs.length).map fun i =>
    match xs.get? i with
    | some (some v) => v
    | _ => moving_avg_val isInt xs i

/-- Mean and population variance (`np.mean`, `np.std(... , ddof = 0)` via
the pandas reductions, which skip NaN) of the non-missing values of a
column; `none` when the column has no non-missing value, in which case the
Python statistics are NaN. -/
def colStats (xs : List (Option ℚ)) : Option (ℚ × ℚ) :=
  match xs.filterMap id with
  | [] => none
  | vals =>
      let μ : ℚ := vals.sum / (vals.length : ℚ)
      some (μ, (vals.map fun v => (v - μ) ^ 2).sum / (vals.length : ℚ))

/-- Embedding of `Preprocess.remove_outliers` on one metric column
(modules/preprocess.py, lines 55-69).  The source condition
`data[m] < mean - 3*std  or  data[m] > mean + 3*std` on a present value `a`
is, since `std ≥ 0`, equivalent to `(a - mean)^2 > 9 * variance`, which is
how it is written here so that everything stays inside ℚ.  When the column
statistics are NaN (no non-missing value) both comparisons are false in
pandas and nothing is removed. -/
def remove_outliers_col (xs : List (Option ℚ)) : List (Option ℚ) :=
  match colStats xs with
  | none => xs
  | some (μ, v) =>
      xs.map fun x =>
        match x with
        | none => none
        | some a => if (a - μ) ^ 2 > 9 * v then none else some a

/-- Frame-level `Preprocess.remove_outliers`: the metric columns are
processed independently. -/
def remove_outliers (data : List (List (Option ℚ))) : List (List (Option ℚ)) :=
  data.map remove_outliers_col

/-- Frame-level `Preprocess.fill_moving_avg`: the metric columns are
processed independently, each with its own dtype flag. -/
def fill_moving_avg (ints : List Bool) (data : List (List (Option ℚ))) : List (List ℚ) :=
  List.zipWith fill_moving_avg_col ints data

/-- Embedding of `self.data[m].isnull().all()` (modules/alert_detector.py,
line 178), the condition of the fatal assertion of `get_alerts_table`. -/
def isnull_all (xs : List (Option ℚ)) : Bool :=
  xs.all Option.isNone

/-- The column of the literal fixture test `test_fill_moving_avg`
(src/test/preprocess_test.py): `[1, 2, ∅, 4, 5, ∅, ∅, 8, 9, 10]`. -/
def fixture_col : List (Option ℚ) :=
  [some 1, some 2, none, some 4, some 5, none, none, some 8, some 9, some 10]

/-- A column on which outlier removal is not idempotent: ten zeros, a 10
and a 100. -/
def twice_col : List (Option ℚ) :=
  [some 0, some 0, some 0, some 0, some 0, some 0, some 0, some 0, some 0,
   some 0, some 10, some 100]

/-- Evaluation helper: the result of one pass of outlier removal over
`twice_col` (statistics μ = 55/6, 9σ² = 6818.75; only the 100 is outside). -/
theorem remove_twice_col_once :
    remove_outliers_col twice_col =
      [some 0, some 0, some 0, some 0, some 0, some 0, some 0, some 0, some 0,
       some 0, some 10, none] := by
  norm_num [remove_outliers_col, colStats, twice_col, List.filterMap]

/-- Evaluation helper: the second pass removes the 10 as well (the new
statistics μ = 10/11, 9σ² = 9000/121 are computed without the 100). -/
theorem remove_twice_col_twice :
    remove_outliers_col
      [some 0, some 0, some 0, some 0, some 0, some 0, some 0, some 0, some 0,
       some (0:ℚ), some 10, none] =
      [some 0, some 0, some 0, some 0, some 0, some 0, some 0, some 0, some 0,
       some 0, none, none] := by
  norm_num [remove_outliers_col, colStats, List.filterMap]

/-- Evaluation helper: the embedded `fill_moving_avg` on the fixture
column (the mean of `{1, 2}` is 3/2 and the mean of `{1, 2, 4, 5}` is 3). -/
theorem fill_fixture_eval :
    fill_moving_avg_col false fixture_col =
      [1, 2, 3/2, 4, 5, 3, 3, 8, 9, 10] := by
  norm_num [fill_moving_avg_col, fixture_col, moving_avg_val, rollingMean7,
    List.range_succ, List.filterMap]
  simp

/-- C7 counterexample: on the fixture column `[1, 2, ∅, 4, 5, ∅, ∅, 8, 9, 10]`
the embedded `fill_moving_avg` does not return `[1, 2, 2, 4, 5, 4, 4, 8, 9, 10]`
claimed by the spec (and expected by the repository's own fixture test). -/
theorem c7_counterexample :
    fill_moving_avg_col false fixture_col ≠
      [1, 2, 2, 4, 5, 4, 4, 8, 9, 10] := by
  rw [fill_fixture_eval]
  intro h
  simp only [List.cons.injEq] at h
  norm_num at h

/-- C7 (amended): gap filling replaces each missing value by the trailing
moving average over a 7-day window with minimum window 1 (zero when
undefined); on the column `[1, 2, ∅, 4, 5, ∅, ∅, 8, 9, 10]` this yields
`[1, 2, 3/2, 4, 5, 3, 3, 8, 9, 10]`, not the values of the fixture test
(so the repository's own test `test_fill_moving_avg` fails against the
function it exercises). -/
theorem c7_fill_moving_avg :
    fill_moving_avg_col false fixture_col =
      [1, 2, 3/2, 4, 5, 3, 3, 8, 9, 10] :=
  fill_fixture_eval

/-- C6 counterexample: outlier removal is not idempotent.  On the column
made of ten zeros, a 10 and a 100, the first pass removes only the 100,
which shrinks the statistics enough for the second pass to remove the 10. -/
theorem c6_counterexample :
    remove_outliers_col (remove_outliers_col twice_col) ≠
      remove_outliers_col twice_col := by
  rw [remove_twice_col_once, remove_twice_col_twice]
  intro h
  simp only [List.cons.injEq] at h
  simp at h

/-- C6 (amended): outlier removal is a projection in the weaker sense that
it never restores or alters a value — every output entry is either `none`
or the corresponding input entry — but applying it twice can remove more
values than applying it once, so it is not idempotent. -/
theorem c6_projection (xs : List (Option ℚ)) :
    List.Forall₂ (fun a b => b = none ∨ b = a) xs (remove_outliers_col xs) := by
  unfold remove_outliers_col
  cases h : colStats xs with
  | none =>
      exact List.forall₂_same.mpr fun x _ => Or.inr rfl
  | some s =>
      obtain ⟨μ, v⟩ := s
      refine List.forall₂_map_right_iff.mpr (List.forall₂_same.mpr fun x _ => ?_)
      cases x with
      | none => exact Or.inl rfl
      | some a =>
          by_cases hc : (a - μ) ^ 2 > 9 * v
          · exact Or.inl (by simp [hc])
          · exact Or.inr (by simp [hc])

/-- C2 counterexample: on an entirely missing three-day column, imputation
is not a no-op — `fill_moving_avg` substitutes 0 everywhere (the rolling
mean is NaN, and `fillna(0)` turns it into 0) — and the all-null condition
of the fatal assertion of `get_alerts_table` is therefore false on the
imputed column, so the run does not fail. -/
theorem c2_counterexample :
    fill_moving_avg_col false (remove_outliers_col [none, none, none]) = [0, 0, 0] ∧
    isnull_all
      ((fill_moving_avg_col false (remove_outliers_col [none, none, none])).map some) =
      false := by
  norm_num [remove_outliers_col, colStats, fill_moving_avg_col, moving_avg_val,
    rollingMean7, isnull_all, List.filterMap, List.range_succ]

/-- C2 (amended): on a metric column that is entirely missing across the
whole modeling window, `remove_outliers` is indeed a no-op (the NaN
statistics make both outlier comparisons false), but `fill_moving_avg`
replaces every value with 0 rather than leaving it undefined, so the
all-null assertion of `get_alerts_table` does not fire on the imputed
column and the run proceeds for that metric with an all-zero history. -/
theorem c2_all_missing (isInt : Bool) (xs : List (Option ℚ))
    (hall : ∀ x ∈ xs, x = none) :
    remove_outliers_col xs = xs ∧
    fill_moving_avg_col isInt xs = xs.map (fun _ => 0) ∧
    (xs ≠ [] →
      isnull_all ((fill_moving_avg_col isInt xs).map some) = false) := by
  have hfm : xs.filterMap id = [] :=
    List.filterMap_eq_nil_iff.mpr fun a ha => hall a ha
  have h1 : remove_outliers_col xs = xs := by
    simp [remove_outliers_col, colStats, hfm]
  have hwin : ∀ i, rollingMean7 xs i = none := by
    intro i
    have hw : ((xs.take (i + 1)).drop (i - 6)).filterMap id = [] :=
      List.filterMap_eq_nil_iff.mpr fun a ha =>
        hall a (List.mem_of_mem_take (List.mem_of_mem_drop ha))
    simp [rollingMean7, hw]
  have h2 : fill_moving_avg_col isInt xs = xs.map (fun _ => 0) := by
    apply List.ext_getElem (by simp [fill_moving_avg_col])
    intro i hi1 hi2
    have hilen : i < xs.length := by
      simpa [fill_moving_avg_col] using hi1
    have hxi : xs[i]? = some none := by
      rw [List.getElem?_eq_getElem hilen]
      rw [hall _ (List.getElem_mem hilen)]
    simp [fill_moving_avg_col, hxi, moving_avg_val, hwin, pyRound]
  refine ⟨h1, h2, ?_⟩
  intro hne
  rw [h2]
  cases xs with
  | nil => exact absurd rfl hne
  | cons a t => simp [isnull_all]

/-- C2 witness: the amended statement at the concrete all-missing
three-day column. -/
theorem c2_witness :
    remove_outliers_col [none, none, none] = [none, none, none] ∧
    fill_moving_avg_col false [none, none, none] =
      ([none, none, none] : List (Option ℚ)).map (fun _ => 0) ∧
    (([none, none, none] : List (Option ℚ)) ≠ [] →
      isnull_all ((fill_moving_avg_col false [none, none, none]).map some) = false) :=
  c2_all_missing false [none, none, none] (by simp)

/-! ## Dates

`datetime.date` values are embedded as year/month/day triples with the
proleptic Gregorian calendar rules of Python's `datetime` module: adding a
`timedelta` steps through successive days, and a difference of dates is a
difference of ordinals. -/

/-- A Python `datetime.date`. -/
structure PyDate where
  year : ℤ
  month : ℕ
  day : ℕ
deriving DecidableEq

/-- Gregorian leap-year rule (Python `calendar.isleap`). -/
def isLeap (y : ℤ) : Bool :=
  decide ((y % 4 = 0 ∧ y % 100 ≠ 0) ∨ y % 400 = 0)

/-- Number of days of month `m` of year `y`. -/
def daysInMonth (y : ℤ) (m : ℕ) : ℕ :=
  if m = 2 then (if isLeap y then 29 else 28)
  else if m = 4 ∨ m = 6 ∨ m = 9 ∨ m = 11 then 30
  else 31

/-- The next calendar day. -/
def PyDate.succ (d : PyDate) : PyDate :=
  if d.day < daysInMonth d.year d.month then ⟨d.year, d.month, d.day + 1⟩
  else if d.month < 12 then ⟨d.year, d.month + 1, 1⟩
  else ⟨d.year + 1, 1, 1⟩

/-- The previous calendar day. -/
def PyDate.pred (d : PyDate) : PyDate :=
  if 1 < d.day then ⟨d.year, d.month, d.day - 1⟩
  else if 1 < d.month then ⟨d.year, d.month - 1, daysInMonth d.year (d.month - 1)⟩
  else ⟨d.year - 1, 12, 31⟩

/-- Python `date + timedelta(days = n)` for `n ≥ 0`. -/
def addDays : PyDate → ℕ → PyDate
  | d, 0 => d
  | d, n + 1 => addDays d.succ n

/-- Python `date - timedelta(days = n)` for `n ≥ 0`. -/
def subDays : PyDate → ℕ → PyDate
  | d, 0 => d
  | d, n + 1 => subDays d.pred n

/-- Days before month `m` in year `y` (with the leap adjustment), as in the
internals of Python's `datetime.date.toordinal`. -/
def daysBeforeMonth (y : ℤ) (m : ℕ) : ℕ :=
  let base :=
    if m = 1 then 0 else if m = 2 then 31 else if m = 3 then 59
    else if m = 4 then 90 else if m = 5 then 120 else if m = 6 then 151
    else if m = 7 then 181 else if m = 8 then 212 else if m = 9 then 243
    else if m = 10 then 273 else if m = 11 then 304 else 334
  if 2 < m ∧ isLeap y = true then base + 1 else base

/-- Python `datetime.date.toordinal` (proleptic Gregorian day number);
Python's floor divisions are `Int.fdiv`. -/
def toOrdinal (d : PyDate) : ℤ :=
  365 * (d.year - 1) + Int.fdiv (d.year - 1) 4 - Int.fdiv (d.year - 1) 100 +
    Int.fdiv (d.year - 1) 400 + (daysBeforeMonth d.year d.month : ℤ) + (d.day : ℤ)

/-- Python `(a - b).days` for two dates. -/
def dateDiff (a b : PyDate) : ℤ :=
  toOrdinal a - toOrdinal b

/-- Python `a <= b` on dates, as a computable comparison. -/
def PyDate.le (a b : PyDate) : Bool :=
  decide (toOrdinal a ≤ toOrdinal b)

/-- Embedding of `AlertDetector.calculate_days_remaining_month`
(modules/alert_detector.py, lines 330-343): the first day of the date's
month plus 31 days, walked back by its day-of-month, and the inclusive
day count from the date to that day. -/
def calculate_days_remaining_month (date : PyDate) : ℤ × PyDate :=
  let first_day_next_month := addDays ⟨date.year, date.month, 1⟩ 31
  let last_day_current_month := subDays first_day_next_month first_day_next_month.day
  let remaining_days := dateDiff last_day_current_month date + 1
  (remaining_days, last_day_current_month)

theorem addDays_one (d : PyDate) : addDays d 1 = d.succ := rfl

theorem subDays_one (d : PyDate) : subDays d 1 = d.pred := rfl

theorem addDays_add (d : PyDate) (a b : ℕ) :
    addDays d (a + b) = addDays (addDays d a) b := by
  induction a generalizing d with
  | zero => rw [Nat.zero_add]; rfl
  | succ n ih =>
      have h1 : n + 1 + b = (n + b) + 1 := by omega
      rw [h1]
      show addDays d.succ (n + b) = addDays (addDays d.succ n) b
      exact ih d.succ

theorem subDays_add (d : PyDate) (a b : ℕ) :
    subDays d (a + b) = subDays (subDays d a) b := by
  induction a generalizing d with
  | zero => rw [Nat.zero_add]; rfl
  | succ n ih =>
      have h1 : n + 1 + b = (n + b) + 1 := by omega
      rw [h1]
      show subDays d.pred (n + b) = subDays (subDays d.pred n) b
      exact ih d.pred

theorem addDays_within (y : ℤ) (m d n L : ℕ) (hL : daysInMonth y m = L)
    (h2 : d + n ≤ L) : addDays ⟨y, m, d⟩ n = ⟨y, m, d + n⟩ := by
  induction n generalizing d with
  | zero => rfl
  | succ n ih =>
      have hd : d < daysInMonth y m := by omega
      have hs : (⟨y, m, d⟩ : PyDate).succ = ⟨y, m, d + 1⟩ := by
        simp [PyDate.succ, hd]
      show addDays (⟨y, m, d⟩ : PyDate).succ n = _
      rw [hs, ih (d + 1) (by omega)]
      congr 1
      omega

theorem subDays_within (y : ℤ) (m : ℕ) (d n : ℕ) (h : n < d) :
    subDays ⟨y, m, d⟩ n = ⟨y, m, d - n⟩ := by
  induction n generalizing d with
  | zero => rfl
  | succ n ih =>
      have hd : 1 < d := by omega
      have hp : (⟨y, m, d⟩ : PyDate).pred = ⟨y, m, d - 1⟩ := by
        simp [PyDate.pred, hd]
      show subDays (⟨y, m, d⟩ : PyDate).pred n = _
      rw [hp, ih (d - 1) (by omega)]
      congr 1
      omega

theorem succ_roll (y : ℤ) (m : ℕ) (hm : m < 12) :
    (⟨y, m, daysInMonth y m⟩ : PyDate).succ = ⟨y, m + 1, 1⟩ := by
  simp [PyDate.succ, hm]

theorem succ_roll_year (y : ℤ) :
    (⟨y, 12, 31⟩ : PyDate).succ = ⟨y + 1, 1, 1⟩ := by
  norm_num [PyDate.succ, daysInMonth]

theorem pred_roll (y : ℤ) (m : ℕ) (hm : 1 ≤ m) :
    (⟨y, m + 1, 1⟩ : PyDate).pred = ⟨y, m, daysInMonth y m⟩ := by
  simp [PyDate.pred, hm]
  omega

theorem pred_newyear (y : ℤ) :
    (⟨y + 1, 1, 1⟩ : PyDate).pred = ⟨y, 12, 31⟩ := by
  simp [PyDate.pred]

theorem dateDiff_same_month (y : ℤ) (m d1 d2 : ℕ) :
    dateDiff ⟨y, m, d1⟩ ⟨y, m, d2⟩ = (d1 : ℤ) - (d2 : ℤ) := by
  simp only [dateDiff, toOrdinal]
  ring

theorem daysInMonth_ge (y : ℤ) (m : ℕ) : 28 ≤ daysInMonth y m := by
  unfold daysInMonth
  split_ifs <;> norm_num

theorem daysInMonth_le (y : ℤ) (m : ℕ) : daysInMonth y m ≤ 31 := by
  unfold daysInMonth
  split_ifs <;> norm_num

/-- C9: for every valid evaluation date, `calculate_days_remaining_month`
returns the last calendar day of that date's month, together with the
inclusive count of days from the evaluation date through that day: the
day-count trick of adding 31 days to the first of the month and walking
back by the resulting day-of-month is correct for every month length. -/
theorem c9_days_remaining (y : ℤ) (m d : ℕ)
    (hm1 : 1 ≤ m) (hm2 : m ≤ 12) (hd1 : 1 ≤ d) (hd2 : d ≤ daysInMonth y m) :
    calculate_days_remaining_month ⟨y, m, d⟩ =
      ((daysInMonth y m : ℤ) - (d : ℤ) + 1, ⟨y, m, daysInMonth y m⟩) := by
  have hL28 : 28 ≤ daysInMonth y m := daysInMonth_ge y m
  have hL31 : daysInMonth y m ≤ 31 := daysInMonth_le y m
  by_cases h12 : m = 12
  · subst h12
    have hLv : daysInMonth y 12 = 31 := by norm_num [daysInMonth]
    have ha : addDays ⟨y, 12, 1⟩ 30 = ⟨y, 12, 31⟩ := by
      have := addDays_within y 12 1 30 31 hLv (by omega)
      simpa using this
    have hfirst : addDays ⟨y, 12, 1⟩ 31 = ⟨y + 1, 1, 1⟩ := by
      rw [show (31 : ℕ) = 30 + 1 by norm_num, addDays_add, ha, addDays_one,
        succ_roll_year]
    have hsub : subDays ⟨y + 1, 1, 1⟩ 1 = ⟨y, 12, 31⟩ := by
      rw [subDays_one, pred_newyear]
    show (dateDiff
        (subDays (addDays ⟨y, 12, 1⟩ 31) (addDays ⟨y, 12, 1⟩ 31).day) ⟨y, 12, d⟩ + 1,
        subDays (addDays ⟨y, 12, 1⟩ 31) (addDays ⟨y, 12, 1⟩ 31).day) = _
    rw [hfirst]
    show (dateDiff (subDays ⟨y + 1, 1, 1⟩ 1) ⟨y, 12, d⟩ + 1,
        subDays ⟨y + 1, 1, 1⟩ 1) = _
    rw [hsub, dateDiff_same_month, hLv]
  · have hm12 : m < 12 := by omega
    obtain ⟨L, hL⟩ : ∃ L, daysInMonth y m = L := ⟨_, rfl⟩
    rw [hL] at hd2 hL28 hL31
    rw [hL]
    have hnext : 28 ≤ daysInMonth y (m + 1) := daysInMonth_ge y (m + 1)
    have ha : addDays ⟨y, m, 1⟩ (L - 1) = ⟨y, m, L⟩ := by
      have := addDays_within y m 1 (L - 1) L hL (by omega)
      simpa [show 1 + (L - 1) = L by omega] using this
    obtain ⟨K, hK32⟩ : ∃ K, L + K = 32 := ⟨32 - L, by omega⟩
    have hb : addDays ⟨y, m + 1, 1⟩ (K - 1) = ⟨y, m + 1, K⟩ := by
      rw [addDays_within y (m + 1) 1 (K - 1) (daysInMonth y (m + 1)) rfl (by omega)]
      simp only [PyDate.mk.injEq, true_and]
      omega
    have hfirst : addDays ⟨y, m, 1⟩ 31 = ⟨y, m + 1, K⟩ := by
      rw [show (31 : ℕ) = (L - 1) + (1 + (K - 1)) by omega, addDays_add, ha,
        addDays_add, addDays_one]
      rw [show (⟨y, m, L⟩ : PyDate).succ = ⟨y, m + 1, 1⟩ by
        rw [← hL]; exact succ_roll y m hm12]
      exact hb
    have hsub : subDays ⟨y, m + 1, K⟩ K = ⟨y, m, L⟩ := by
      rw [show K = (K - 1) + 1 by omega, subDays_add]
      have hmid : subDays ⟨y, m + 1, K - 1 + 1⟩ (K - 1) = ⟨y, m + 1, 1⟩ := by
        rw [subDays_within y (m + 1) (K - 1 + 1) (K - 1) (by omega)]
        simp only [PyDate.mk.injEq, true_and]
        omega
      rw [hmid, subDays_one, pred_roll y m hm1, hL]
    show (dateDiff
        (subDays (addDays ⟨y, m, 1⟩ 31) (addDays ⟨y, m, 1⟩ 31).day) ⟨y, m, d⟩ + 1,
        subDays (addDays ⟨y, m, 1⟩ 31) (addDays ⟨y, m, 1⟩ 31).day) = _
    rw [hfirst]
    show (dateDiff (subDays ⟨y, m + 1, K⟩ K) ⟨y, m, d⟩ + 1,
        subDays ⟨y, m + 1, K⟩ K) = _
    rw [hsub, dateDiff_same_month]

/-- C9 witness: 2024-02-15 resolves to last day 2024-02-29 (leap year) with
15 remaining days, and 2024-01-31 resolves to itself with 1 remaining day. -/
theorem c9_witness :
    calculate_days_remaining_month ⟨2024, 2, 15⟩ = ((15 : ℤ), ⟨2024, 2, 29⟩) ∧
    calculate_days_remaining_month ⟨2024, 1, 31⟩ = ((1 : ℤ), ⟨2024, 1, 31⟩) := by
  have e1 : daysInMonth 2024 2 = 29 := by decide
  have e2 : daysInMonth 2024 1 = 31 := by decide
  have h1 := c9_days_remaining 2024 2 15 (by norm_num) (by norm_num) (by norm_num)
    (by rw [e1]; norm_num)
  have h2 := c9_days_remaining 2024 1 31 (by norm_num) (by norm_num) (by norm_num)
    (by simp [e2])
  rw [e1] at h1
  rw [e2] at h2
  norm_num at h1 h2
  exact ⟨h1, h2⟩

/-! ## The alert detector

`get_alerts_table` (modules/alert_detector.py, lines 138-306) iterates
over the metric columns.  The Python loop body leaves its local variables
(`pred`, `liminf`, `limsup`, `is_alert`, `details`, `pred_table`) alive
across iterations, so the embedding threads them explicitly: an iteration
that does not reassign one of them reads the previous iteration's value,
and reading one before any iteration has assigned it is a `NameError`
that aborts the run. -/

/-- A Python value held in a cell of the alerts table: an `int`, a `float`
(modelled as ℚ), a string, or NaN. -/
inductive Cell where
  | int (z : ℤ)
  | float (q : ℚ)
  | str (s : String)
  | nan
deriving DecidableEq

/-- The fields of a metric's Model Parameters record that
`get_alerts_table` reads.  `method`, `isRelated` and `sendAlert` hold the
raw configuration strings that the source compares against string
literals (`== 'True'`, `== 'False'`). -/
structure ModelParams where
  method : String
  isRelated : String
  sendAlert : String
deriving DecidableEq

/-- One row of a prediction table returned by a forecasting backend
(`ds`, `yhat`, `yhat_lower`, `yhat_upper`). -/
structure PredRow where
  ds : PyDate
  yhat : ℚ
  yhat_lower : ℚ
  yhat_upper : ℚ
deriving DecidableEq

/-- One row of the alerts table before the final string rendering
(modules/alert_detector.py, lines 274-280). -/
structure AlertRow where
  metric : String
  alert : ℚ
  prediction : Cell
  real : Cell
  liminf : Cell
  limsup : Cell
  details : String
deriving DecidableEq

/-- One row of the future-predictions table (Date, Metric, Prediction). -/
structure FutureRow where
  fdate : PyDate
  fmetric : String
  fpred : ℚ
deriving DecidableEq

/-- The Python locals of the metric loop body that survive from one
iteration to the next and are read (stale) by an iteration that does not
reassign them. -/
structure Carry where
  pred : Cell
  liminf : Cell
  limsup : Cell
  is_alert : ℚ
  details : String
  pred_table : List PredRow
deriving DecidableEq

/-- The loop state of `get_alerts_table`: the accumulated alerts table,
the accumulated future table, and the carried-over locals (`none` before
the first iteration has set them). -/
structure RunState where
  alerts : List AlertRow
  future : List FutureRow
  carry : Option Carry
deriving DecidableEq

/-- The inputs of one run of `get_alerts_table`.  The downloaded frame and
the two forecasting backends are external collaborators, so they enter
the embedding as functions of the metric name: `dataAllNull m` embeds
`self.data[m].isnull().all()`, `isIntLast m` embeds
`isinstance(self.data[m].iloc[-1], int)`, `realOf m` embeds
`real_value_table[m].iloc[0]` (`none` is NaN), `params m` is the metric's
row of `model_params`, and `forecast m` is the prediction table that the
metric's backend returns. -/
structure Env where
  date : PyDate
  limsup_alert : Bool
  dataAllNull : String → Bool
  isIntLast : String → Bool
  realOf : String → Option ℚ
  params : String → Option ModelParams
  forecast : String → List PredRow

/-- Python `m.replace('_', ' ')` (line 271): both arguments are single
characters, so the replacement is a character map. -/
def underscoreToSpace (s : String) : String :=
  String.mk (s.data.map fun c => if c = '_' then ' ' else c)

/-- Python `number.split('.')` (line 318): the separator is the single
character `'.'`. -/
def splitDotAux : List Char → List Char → List String
  | [], acc => [String.mk acc.reverse]
  | c :: rest, acc =>
      if c = '.' then String.mk acc.reverse :: splitDotAux rest []
      else splitDotAux rest (c :: acc)

/-- Python `number.split('.')` on a string. -/
def splitDot (s : String) : List String :=
  splitDotAux s.data []

/-- Python `int(x)` on a float: truncation toward zero. -/
def pyInt (q : ℚ) : ℤ :=
  if q < 0 then ⌈q⌉ else ⌊q⌋

/-- Python `round(x, 3)`. -/
def roundTo3 (q : ℚ) : ℚ :=
  (pyRound (q * 1000) : ℚ) / 1000

/-- Negative-prediction clamp (modules/alert_detector.py, line 216). -/
def clamp_pred (pred : ℚ) : ℚ :=
  if pred < 0 then 0 else pred

/-- Lower-bound clamp, reading the already clamped prediction (line 219). -/
def clamp_liminf (pred liminf : ℚ) : ℚ :=
  if liminf < 0 ∨ pred = 0 then 0 else liminf

/-- Upper-bound clamp (line 220). -/
def clamp_limsup (limsup : ℚ) : ℚ :=
  if limsup < 0 then 0 else limsup

/-- The raw alert decision for a present actual value of a numeric-method
metric (modules/alert_detector.py, lines 229-237): the resulting pair
(is_alert, details). -/
def decide_alert (real liminf limsup : ℚ) (limsup_alert : Bool) : ℚ × String :=
  if real < liminf then (1, "Decreasing tendency.*")
  else if real > limsup ∧ limsup_alert = true then (1, "Increasing tendency.*")
  else (0, "No alert.")

/-- The numeric decision of lines 216-237 as one function: clamp the
prediction and both bounds, then compare the actual value against the
clamped bounds. -/
def numericDecision (pred liminf limsup real : ℚ) (limsup_alert : Bool) : ℚ × String :=
  decide_alert real (clamp_liminf (clamp_pred pred) liminf) (clamp_limsup limsup)
    limsup_alert

/-- `ExtraStylesPreAlerts.do_nothing`
(config/alerts_table_styles/extra_styles.py): the only callable the
`isRelated` hook discovery finds, and it returns its inputs unchanged. -/
def do_nothing (alerts_table : List AlertRow) (metric : String)
    (pred liminf limsup : ℚ) : ℚ × ℚ × ℚ :=
  (pred, liminf, limsup)

/-- The Python comparison `real != -1.0` of line 266 on the value held by
the `real` variable (a string or NaN compares unequal to the float). -/
def cellNeNeg1 : Cell → Bool
  | Cell.int z => decide (z ≠ -1)
  | Cell.float q => decide (q ≠ -1)
  | Cell.str _ => true
  | Cell.nan => true

/-- The body of the metric loop of `get_alerts_table`
(modules/alert_detector.py, lines 180-281) for one metric `m` with model
parameters `mp`: the metric's alert row and the value held by the
`pred_table` variable after the iteration, or the exception aborting the
run.  A method other than the three known ones assigns none of the loop
locals, so the row is built from the carried-over values of the previous
iteration; with no previous iteration the `NameError` aborts the run.
The constraint branch likewise leaves `pred_table` untouched, and the
future-table block that runs afterwards raises a `NameError` when no
earlier numeric iteration has set it. -/
def metricRow (env : Env) (alerts : List AlertRow) (carry : Option Carry)
    (m : String) (mp : ModelParams) : Except String (AlertRow × List PredRow) :=
  let real0 := env.realOf m
  if mp.method = "prophet" ∨ mp.method = "arima" then
    match (env.forecast m).find? (fun r => decide (r.ds = env.date)) with
    | none =>
        Except.error ("IndexError: no prediction row for the date of metric " ++ m)
    | some row =>
        let t :=
          if mp.isRelated = "True" then
            do_nothing alerts m row.yhat row.yhat_lower row.yhat_upper
          else (row.yhat, row.yhat_lower, row.yhat_upper)
        let pred1 := clamp_pred t.1
        let liminf1 := clamp_liminf pred1 t.2.1
        let limsup1 := clamp_limsup t.2.2
        let dec :=
          match real0 with
          | none => ((1 : ℚ), "Missing data.**", (-1 : ℚ))
          | some rv =>
              let d := decide_alert rv liminf1 limsup1 env.limsup_alert
              (d.1, d.2, rv)
        let predCell :=
          if env.isIntLast m then Cell.int (pyRound pred1)
          else Cell.float (roundTo3 pred1)
        let realCell :=
          if env.isIntLast m then Cell.int (pyInt dec.2.2)
          else Cell.float (roundTo3 dec.2.2)
        let pt :=
          if env.isIntLast m then
            (env.forecast m).map fun r => { r with yhat := (pyRound r.yhat : ℚ) }
          else env.forecast m
        let ia :=
          if mp.sendAlert = "False" ∧ cellNeNeg1 realCell = true then 2 else dec.1
        Except.ok
          (⟨underscoreToSpace m, ia, predCell, realCell,
            Cell.float liminf1, Cell.float limsup1, dec.2.1⟩, pt)
  else if mp.method = "constraint" then
    let dec :=
      match real0 with
      | none => ((1 : ℚ), "Missing data.**", Cell.float (-1))
      | some rv =>
          (rv, if rv ≠ 0 then "Constraint violated.***" else "No alert.",
            Cell.str (if rv = 1 then "Yes" else "No"))
    let ia :=
      if mp.sendAlert = "False" ∧ cellNeNeg1 dec.2.2 = true then 2 else dec.1
    match carry with
    | none => Except.error "NameError: name pred_table is not defined"
    | some c =>
        Except.ok
          (⟨underscoreToSpace m, ia, Cell.str "No", dec.2.2,
            Cell.str "-", Cell.str "-", dec.2.1⟩, c.pred_table)
  else
    match carry with
    | none => Except.error "NameError: name is_alert is not defined"
    | some c =>
        let realCell :=
          match real0 with
          | none => Cell.nan
          | some rv => Cell.float rv
        let ia :=
          if mp.sendAlert = "False" ∧ cellNeNeg1 realCell = true then 2
          else c.is_alert
        Except.ok
          (⟨underscoreToSpace m, ia, c.pred, realCell, c.liminf, c.limsup,
            c.details⟩, c.pred_table)

/-- The future-table block at the end of every loop iteration
(modules/alert_detector.py, lines 283-293): the rows of the current
`pred_table` value with date ≥ the evaluation date, negative predictions
clamped to 0, tagged with the (renamed) metric. -/
def futureRows (date : PyDate) (name : String) (pt : List PredRow) : List FutureRow :=
  (pt.filter fun r => PyDate.le date r.ds).map
    fun r => ⟨r.ds, name, if r.yhat < 0 then 0 else r.yhat⟩

/-- One iteration of the metric loop of `get_alerts_table`
(modules/alert_detector.py, lines 175-293): the fatal all-null assertion,
the model-parameters lookup, the alert row appended to the alerts table,
and the forward rows of the current `pred_table` appended to the future
table. -/
def stepMetric (env : Env) (st : RunState) (m : String) : Except String RunState :=
  if env.dataAllNull m then
    Except.error ("Error: Your metric " ++ m ++ " have all values as null.")
  else
    match env.params m with
    | none => Except.error ("IndexError: no model params for metric " ++ m)
    | some mp =>
        match metricRow env st.alerts st.carry m mp with
        | Except.error e => Except.error e
        | Except.ok (row, pt) =>
            Except.ok
              ⟨st.alerts ++ [row],
                st.future ++ futureRows env.date (underscoreToSpace m) pt,
                some ⟨row.prediction, row.liminf, row.limsup, row.alert,
                  row.details, pt⟩⟩

/-- The whole metric loop of `get_alerts_table`. -/
def runMetrics (env : Env) (metrics : List String) : Except String RunState :=
  metrics.foldlM (stepMetric env) ⟨[], [], none⟩

/-- The digits after the decimal point of a 3-decimal float, as Python's
`str` prints them: trailing zeros dropped, at least one digit kept. -/
def fracStr (mil : ℕ) : String :=
  let d2 := mil / 100
  let d1 := mil / 10 % 10
  let d0 := mil % 10
  if d0 = 0 then
    if d1 = 0 then toString d2 else toString d2 ++ toString d1
  else toString d2 ++ toString d1 ++ toString d0

/-- Python `str` of a float carrying at most 3 decimals (every float that
reaches the rendering step was rounded to 3 decimals beforehand). -/
def floatStr (q : ℚ) : String :=
  let s := if q < 0 then "-" else ""
  let a := if q < 0 then -q else q
  let ip := (⌊a⌋).toNat
  let mil := ((a - ⌊a⌋) * 1000).floor.toNat
  s ++ toString ip ++ "." ++ fracStr mil

/-- Python `str` applied to a cell (`astype(str)`, lines 297-298). -/
def pyStr : Cell → String
  | Cell.int z => toString z
  | Cell.float q => floatStr q
  | Cell.str s => s
  | Cell.nan => "nan"

/-- Embedding of `AlertDetector.remove_decimals`
(modules/alert_detector.py, lines 308-328): split on the decimal point;
with no decimal part the `IndexError` is caught and the string returned
unchanged; when the decimal digits sum to zero only the integer part is
kept (`int(d)` of a digit character `c` is `c.toNat - 48`). -/
def remove_decimals (number : String) : String :=
  match splitDot number with
  | [] => number
  | [_] => number
  | first :: frac :: _ =>
      if (frac.toList.map fun c => c.toNat - 48).sum = 0 then first else number

/-- One row of the final alerts table, after the Prediction and Real
columns are stringified (lines 295-301). -/
structure FinalRow where
  metric : String
  alert : ℚ
  prediction : String
  real : String
  liminf : Cell
  limsup : Cell
  details : String
deriving DecidableEq

/-- The final rendering of an alert row: `astype(str)` followed by
`remove_decimals` on both Prediction and Real, then a Real equal to
`'-1'` replaced by `'No data'` (lines 297-301). -/
def renderRow (r : AlertRow) : FinalRow :=
  let p := remove_decimals (pyStr r.prediction)
  let rl := remove_decimals (pyStr r.real)
  ⟨r.metric, r.alert, p, if rl = "-1" then "No data" else rl,
    r.liminf, r.limsup, r.details⟩

/-- Embedding of `AlertDetector.get_alerts_table`: the metric loop, the
final string rendering, and the discarding of the future table when
`future_pred` is false. -/
def get_alerts_table (env : Env) (metrics : List String) (future_pred : Bool) :
    Except String (List FinalRow × Option (List FutureRow)) :=
  (runMetrics env metrics).map fun st =>
    (st.alerts.map renderRow, if future_pred then some st.future else none)

/-- The §4.3 alert states of the specification. -/
inductive AlertState where
  | NoAlert
  | Alert
  | MissingData
  | Disabled
deriving DecidableEq

/-- Abstraction map from the code's encoding of an alert record to the
specification's state machine: the code encodes `MissingData` as
`is_alert = 1` together with the detail string `"Missing data.**"`,
`Disabled` as `is_alert = 2`, `NoAlert` as `is_alert = 0`, and `Alert` as
any other truthy `is_alert` (the constraint branch stores the actual
value itself in `is_alert`). -/
def specState (r : AlertRow) : AlertState :=
  if r.details = "Missing data.**" then AlertState.MissingData
  else if r.alert = 2 then AlertState.Disabled
  else if r.alert = 0 then AlertState.NoAlert
  else AlertState.Alert

theorem clamp_le (pred liminf limsup : ℚ) (h : liminf ≤ limsup) :
    clamp_liminf (clamp_pred pred) liminf ≤ clamp_limsup limsup := by
  unfold clamp_liminf clamp_limsup
  split_ifs <;> push_neg at * <;> linarith

theorem clamp_liminf_nonneg (pred liminf : ℚ) : 0 ≤ clamp_liminf pred liminf := by
  unfold clamp_liminf
  split_ifs <;> push_neg at * <;> linarith

/-- C4: for a well-formed raw confidence band, the decision of
`get_alerts_table` for a present actual value is strict: strictly below
the clamped lower bound is an Alert "Decreasing tendency", strictly above
the clamped upper bound is an Alert "Increasing tendency" exactly when the
global `limsup_alert` flag is set (otherwise NoAlert), and an actual equal
to either clamped bound is NoAlert. -/
theorem c4_decision_boundary (pred liminf limsup real : ℚ) (flag : Bool)
    (h : liminf ≤ limsup) :
    (real < clamp_liminf (clamp_pred pred) liminf →
      numericDecision pred liminf limsup real flag = (1, "Decreasing tendency.*")) ∧
    (real > clamp_limsup limsup →
      numericDecision pred liminf limsup real flag =
        if flag then (1, "Increasing tendency.*") else (0, "No alert.")) ∧
    ((real = clamp_liminf (clamp_pred pred) liminf ∨ real = clamp_limsup limsup) →
      numericDecision pred liminf limsup real flag = (0, "No alert.")) := by
  have hle := clamp_le pred liminf limsup h
  unfold numericDecision decide_alert
  refine ⟨fun hr => if_pos hr, ?_, ?_⟩
  · intro hr
    rw [if_neg (by linarith : ¬ real < clamp_liminf (clamp_pred pred) liminf)]
    cases flag with
    | false =>
        rw [if_neg (by simp : ¬ (real > clamp_limsup limsup ∧ false = true))]
        simp
    | true =>
        rw [if_pos ⟨hr, rfl⟩]
        simp
  · rintro (rfl | rfl)
    · rw [if_neg (lt_irrefl _), if_neg (fun hc => absurd hc.1 (not_lt.mpr hle))]
    · rw [if_neg (not_lt.mpr hle), if_neg (fun hc => absurd hc.1 (lt_irrefl _))]

/-- C4 witness: with band [1, 20] around prediction 10 and actual 0, the
decision is an Alert "Decreasing tendency". -/
theorem c4_witness :
    numericDecision 10 1 20 0 true = (1, "Decreasing tendency.*") := by
  have h := (c4_decision_boundary 10 1 20 0 true (by norm_num)).1
  apply h
  norm_num [clamp_liminf, clamp_pred]

theorem pyInt_negOne : pyInt (-1) = -1 := by
  unfold pyInt
  rw [if_pos (by norm_num : (-1 : ℚ) < 0)]
  rw [show ((-1 : ℚ)) = ((-1 : ℤ) : ℚ) by norm_num]
  exact Int.ceil_intCast (-1)

theorem roundTo3_negOne : roundTo3 (-1) = -1 := by
  unfold roundTo3 pyRound
  norm_num

theorem floatStr_negOne : floatStr (-1) = "-1.0" := by
  unfold floatStr fracStr
  rw [if_pos (by norm_num : (-1 : ℚ) < 0), if_pos (by norm_num : (-1 : ℚ) < 0)]
  norm_num
  rw [show Rat.floor 0 = 0 from rfl]
  decide

theorem removeDecimals_int_negOne :
    remove_decimals (pyStr (Cell.int (-1))) = "-1" := by decide

theorem removeDecimals_float_negOne :
    remove_decimals (pyStr (Cell.float (-1))) = "-1" := by
  show remove_decimals (floatStr (-1)) = "-1"
  rw [floatStr_negOne]
  decide

/-- The rendering of an alert row whose internal actual value is the -1
sentinel is the text "No data". -/
theorem renderRow_negOne (r : AlertRow)
    (h : r.real = Cell.int (-1) ∨ r.real = Cell.float (-1)) :
    (renderRow r).real = "No data" := by
  rcases h with h | h
  · simp [renderRow, h, removeDecimals_int_negOne]
  · simp [renderRow, h, removeDecimals_float_negOne]

/-- C5: for a metric of any of the three known methods whose actual value
for the evaluation date is undefined, a successful loop iteration appends
an Alert Record whose detail is "Missing data.**" (encoding the spec's
MissingData state together with `is_alert = 1`), whose internal actual
value is the sentinel -1 (as an int or a float according to the column
type), and whose rendered actual text in the final table is "No data". -/
theorem c5_missing_data (env : Env) (st : RunState) (m : String)
    (mp : ModelParams) (st2 : RunState)
    (hnull : env.dataAllNull m = false)
    (hp : env.params m = some mp)
    (hm : mp.method = "prophet" ∨ mp.method = "arima" ∨ mp.method = "constraint")
    (hr : env.realOf m = none)
    (hok : stepMetric env st m = Except.ok st2) :
    ∃ r : AlertRow,
      st2.alerts = st.alerts ++ [r] ∧
      r.details = "Missing data.**" ∧
      r.alert = 1 ∧
      (r.real = Cell.int (-1) ∨ r.real = Cell.float (-1)) ∧
      specState r = AlertState.MissingData ∧
      (renderRow r).real = "No data" := by
  unfold stepMetric at hok
  rw [hnull, hp] at hok
  simp only [Bool.false_eq_true, if_false] at hok
  cases hmr : metricRow env st.alerts st.carry m mp with
  | error e =>
      rw [hmr] at hok
      exact absurd hok (by simp)
  | ok pr =>
      obtain ⟨row, pt⟩ := pr
      rw [hmr] at hok
      simp only [Except.ok.injEq] at hok
      subst hok
      refine ⟨row, rfl, ?_⟩
      have hprops : row.details = "Missing data.**" ∧ row.alert = 1 ∧
          (row.real = Cell.int (-1) ∨ row.real = Cell.float (-1)) := by
        rcases hm with hm | hm | hm
        · cases hf : (env.forecast m).find? (fun r => decide (r.ds = env.date)) with
          | none => simp [metricRow, hm, hr, hf] at hmr
          | some prow =>
              simp [metricRow, hm, hr, hf, do_nothing] at hmr
              obtain ⟨hrow, hpt⟩ := hmr
              subst hrow
              by_cases hint : env.isIntLast m = true
              · simp [hint, pyInt_negOne, cellNeNeg1]
              · simp [hint, roundTo3_negOne, cellNeNeg1]
        · cases hf : (env.forecast m).find? (fun r => decide (r.ds = env.date)) with
          | none => simp [metricRow, hm, hr, hf] at hmr
          | some prow =>
              simp [metricRow, hm, hr, hf, do_nothing] at hmr
              obtain ⟨hrow, hpt⟩ := hmr
              subst hrow
              by_cases hint : env.isIntLast m = true
              · simp [hint, pyInt_negOne, cellNeNeg1]
              · simp [hint, roundTo3_negOne, cellNeNeg1]
        · cases hc : st.carry with
          | none => simp [metricRow, hm, hr, hc] at hmr
          | some c =>
              simp [metricRow, hm, hr, hc, cellNeNeg1] at hmr
              obtain ⟨hrow, hpt⟩ := hmr
              subst hrow
              simp
      obtain ⟨hd, ha, hre⟩ := hprops
      refine ⟨hd, ha, hre, ?_, renderRow_negOne row hre⟩
      simp [specState, hd]

/-- A concrete evaluation date for witnesses: 2024-01-30. -/
def demo_date : PyDate := ⟨2024, 1, 30⟩

/-- A one-metric environment for witnesses: every metric uses the given
model parameters and actual value, the backend returns the single-row
prediction table [(2024-01-30, 10, 1, 20)], the column is a float column
with data present, and `limsup_alert` is off. -/
def demoEnv (mp : ModelParams) (real : Option ℚ) : Env where
  date := demo_date
  limsup_alert := false
  dataAllNull := fun _ => false
  isIntLast := fun _ => false
  realOf := fun _ => real
  params := fun _ => some mp
  forecast := fun _ => [⟨demo_date, 10, 1, 20⟩]

theorem demo_name_eval : underscoreToSpace "kpi_a" = "kpi a" := by decide

theorem demo_le_eval : PyDate.le demo_date demo_date = true := by decide

theorem demo_find_eval :
    List.find? (fun r => decide (r.ds = demo_date))
      [(⟨demo_date, 10, 1, 20⟩ : PredRow)] = some ⟨demo_date, 10, 1, 20⟩ :=
  List.find?_cons_of_pos _ (by decide)

/-- Evaluation helper: one loop iteration of the demo environment with a
missing actual value. -/
theorem demo_step_missing :
    stepMetric (demoEnv ⟨"prophet", "False", "True"⟩ none) ⟨[], [], none⟩ "kpi_a" =
      Except.ok
        ⟨[⟨"kpi a", 1, Cell.float 10, Cell.float (-1), Cell.float 1, Cell.float 20,
            "Missing data.**"⟩],
          [⟨demo_date, "kpi a", 10⟩],
          some ⟨Cell.float 10, Cell.float 1, Cell.float 20, 1, "Missing data.**",
            [⟨demo_date, 10, 1, 20⟩]⟩⟩ := by
  norm_num [stepMetric, metricRow, demoEnv, futureRows, demo_name_eval,
    demo_le_eval, demo_find_eval, do_nothing, clamp_pred, clamp_liminf,
    clamp_limsup, roundTo3_negOne, roundTo3, pyRound, cellNeNeg1, List.filter]

/-- C5 witness: the statement of `c5_missing_data` at the demo
environment with a missing actual value. -/
theorem c5_witness :
    ∃ r : AlertRow,
      (⟨[⟨"kpi a", 1, Cell.float 10, Cell.float (-1), Cell.float 1, Cell.float 20,
          "Missing data.**"⟩],
        [⟨demo_date, "kpi a", 10⟩],
        some ⟨Cell.float 10, Cell.float 1, Cell.float 20, 1, "Missing data.**",
          [⟨demo_date, 10, 1, 20⟩]⟩⟩ : RunState).alerts =
        (⟨[], [], none⟩ : RunState).alerts ++ [r] ∧
      r.details = "Missing data.**" ∧
      r.alert = 1 ∧
      (r.real = Cell.int (-1) ∨ r.real = Cell.float (-1)) ∧
      specState r = AlertState.MissingData ∧
      (renderRow r).real = "No data" :=
  c5_missing_data (demoEnv ⟨"prophet", "False", "True"⟩ none) ⟨[], [], none⟩
    "kpi_a" ⟨"prophet", "False", "True"⟩ _ rfl rfl (Or.inl rfl) rfl
    demo_step_missing

theorem decide_alert_negOne (li ls : ℚ) (flag : Bool) (h : 0 ≤ li) :
    decide_alert (-1) li ls flag = (1, "Decreasing tendency.*") := by
  unfold decide_alert
  rw [if_pos (by linarith)]

theorem decide_alert_details_ne (real li ls : ℚ) (flag : Bool) :
    (decide_alert real li ls flag).2 ≠ "Missing data.**" := by
  unfold decide_alert
  split_ifs <;> simp

/-- C10 (implicit): the missing-data case is recognised downstream by the
-1 sentinel itself, so a numeric-method metric whose defined actual value
is exactly -1 is treated as missing at the public interface: the
`sendAlert = false` override is not applied (the record keeps the raw
Alert decision instead of being forced to Disabled), and the rendered
actual text is "No data" instead of the true value. -/
theorem c10_sentinel_conflation (env : Env) (st : RunState) (m : String)
    (mp : ModelParams) (st2 : RunState)
    (hnull : env.dataAllNull m = false)
    (hp : env.params m = some mp)
    (hm : mp.method = "prophet" ∨ mp.method = "arima")
    (hs : mp.sendAlert = "False")
    (hr : env.realOf m = some (-1))
    (hok : stepMetric env st m = Except.ok st2) :
    ∃ r : AlertRow,
      st2.alerts = st.alerts ++ [r] ∧
      r.alert = 1 ∧
      specState r ≠ AlertState.Disabled ∧
      specState r = AlertState.Alert ∧
      (renderRow r).real = "No data" := by
  unfold stepMetric at hok
  rw [hnull, hp] at hok
  simp only [Bool.false_eq_true, if_false] at hok
  cases hmr : metricRow env st.alerts st.carry m mp with
  | error e =>
      rw [hmr] at hok
      exact absurd hok (by simp)
  | ok pr =>
      obtain ⟨row, pt⟩ := pr
      rw [hmr] at hok
      simp only [Except.ok.injEq] at hok
      subst hok
      refine ⟨row, rfl, ?_⟩
      have hprops : row.alert = 1 ∧ row.details = "Decreasing tendency.*" ∧
          (row.real = Cell.int (-1) ∨ row.real = Cell.float (-1)) := by
        rcases hm with hm | hm <;>
        · cases hf : (env.forecast m).find? (fun r => decide (r.ds = env.date)) with
          | none => simp [metricRow, hm, hr, hf] at hmr
          | some prow =>
              simp [metricRow, hm, hr, hf, do_nothing,
                decide_alert_negOne _ _ _ (clamp_liminf_nonneg _ _)] at hmr
              obtain ⟨hrow, hpt⟩ := hmr
              subst hrow
              by_cases hint : env.isIntLast m = true
              · simp [hint, pyInt_negOne, cellNeNeg1]
              · simp [hint, roundTo3_negOne, cellNeNeg1]
      obtain ⟨ha, hd, hre⟩ := hprops
      refine ⟨ha, ?_, ?_, renderRow_negOne row hre⟩
      · simp [specState, hd, ha]
      · simp [specState, hd, ha]

/-- Evaluation helper: one loop iteration of the demo environment with
`sendAlert = 'False'` and the defined actual value -1: the raw decision
is the Alert "Decreasing tendency" (since -1 is below the clamped lower
bound 1) and the override does not fire. -/
theorem demo_step_sentinel :
    stepMetric (demoEnv ⟨"prophet", "False", "False"⟩ (some (-1)))
      ⟨[], [], none⟩ "kpi_a" =
      Except.ok
        ⟨[⟨"kpi a", 1, Cell.float 10, Cell.float (-1), Cell.float 1, Cell.float 20,
            "Decreasing tendency.*"⟩],
          [⟨demo_date, "kpi a", 10⟩],
          some ⟨Cell.float 10, Cell.float 1, Cell.float 20, 1,
            "Decreasing tendency.*", [⟨demo_date, 10, 1, 20⟩]⟩⟩ := by
  norm_num [stepMetric, metricRow, demoEnv, futureRows, demo_name_eval,
    demo_le_eval, demo_find_eval, do_nothing, clamp_pred, clamp_liminf,
    clamp_limsup, decide_alert, roundTo3_negOne, roundTo3, pyRound, cellNeNeg1,
    List.filter]

/-- C10 witness: the statement of `c10_sentinel_conflation` at the demo
environment with `sendAlert = 'False'` and actual value -1. -/
theorem c10_witness :
    ∃ r : AlertRow,
      (⟨[⟨"kpi a", 1, Cell.float 10, Cell.float (-1), Cell.float 1, Cell.float 20,
          "Decreasing tendency.*"⟩],
        [⟨demo_date, "kpi a", 10⟩],
        some ⟨Cell.float 10, Cell.float 1, Cell.float 20, 1, "Decreasing tendency.*",
          [⟨demo_date, 10, 1, 20⟩]⟩⟩ : RunState).alerts =
        (⟨[], [], none⟩ : RunState).alerts ++ [r] ∧
      r.alert = 1 ∧
      specState r ≠ AlertState.Disabled ∧
      specState r = AlertState.Alert ∧
      (renderRow r).real = "No data" :=
  c10_sentinel_conflation (demoEnv ⟨"prophet", "False", "False"⟩ (some (-1)))
    ⟨[], [], none⟩ "kpi_a" ⟨"prophet", "False", "False"⟩ _ rfl rfl (Or.inl rfl)
    rfl rfl demo_step_sentinel

/-- C3 counterexample: a prophet metric with `sendAlert = 'False'` and the
defined actual value -1 gets the raw bound-comparison decision (state
Alert), not Disabled — the override tests the sentinel value itself, so a
genuine actual of -1 escapes it. -/
theorem c3_counterexample :
    (stepMetric (demoEnv ⟨"prophet", "False", "False"⟩ (some (-1)))
        ⟨[], [], none⟩ "kpi_a").map (fun st => st.alerts.map specState) =
      Except.ok [AlertState.Alert] ∧
    AlertState.Alert ≠ AlertState.Disabled := by
  rw [demo_step_sentinel]
  constructor
  · norm_num [Except.map, specState]
    exact fun h => absurd h (by decide)
  · simp

/-- C3 (amended): for every numeric-method metric with
`sendAlert = 'False'` and a defined actual value whose recorded (rounded)
form is not the -1 sentinel, the resulting record is forced to Disabled
(alert code 2) regardless of the raw decision, and it still carries the
rounded actual value; when the recorded actual equals -1 (including the
missing-data case) the override is skipped. -/
theorem c3_send_alert_disabled (env : Env) (st : RunState) (m : String)
    (mp : ModelParams) (st2 : RunState) (rv : ℚ)
    (hnull : env.dataAllNull m = false)
    (hp : env.params m = some mp)
    (hm : mp.method = "prophet" ∨ mp.method = "arima")
    (hs : mp.sendAlert = "False")
    (hr : env.realOf m = some rv)
    (hne : (env.isIntLast m = true → pyInt rv ≠ -1) ∧
           (env.isIntLast m = false → roundTo3 rv ≠ -1))
    (hok : stepMetric env st m = Except.ok st2) :
    ∃ r : AlertRow,
      st2.alerts = st.alerts ++ [r] ∧
      r.alert = 2 ∧
      specState r = AlertState.Disabled ∧
      r.real = (if env.isIntLast m = true then Cell.int (pyInt rv)
                else Cell.float (roundTo3 rv)) ∧
      r.metric = underscoreToSpace m := by
  unfold stepMetric at hok
  rw [hnull, hp] at hok
  simp only [Bool.false_eq_true, if_false] at hok
  cases hmr : metricRow env st.alerts st.carry m mp with
  | error e =>
      rw [hmr] at hok
      exact absurd hok (by simp)
  | ok pr =>
      obtain ⟨row, pt⟩ := pr
      rw [hmr] at hok
      simp only [Except.ok.injEq] at hok
      subst hok
      refine ⟨row, rfl, ?_⟩
      rcases hm with hm | hm <;>
      · cases hf : (env.forecast m).find? (fun r => decide (r.ds = env.date)) with
        | none => simp [metricRow, hm, hr, hf] at hmr
        | some prow =>
            simp [metricRow, hm, hr, hf, do_nothing, hs] at hmr
            obtain ⟨hrow, hpt⟩ := hmr
            subst hrow
            by_cases hint : env.isIntLast m = true
            · have hz := hne.1 hint
              refine ⟨?_, ?_, ?_, ?_⟩
              · simp [hint, cellNeNeg1, hz]
              · simp [specState, hint, cellNeNeg1, hz, decide_alert_details_ne]
              · simp [hint]
              · simp
            · have hb : env.isIntLast m = false := by
                cases hb2 : env.isIntLast m
                · rfl
                · exact absurd hb2 hint
              have hz := hne.2 hb
              refine ⟨?_, ?_, ?_, ?_⟩
              · simp [hb, cellNeNeg1, hz]
              · simp [specState, hb, cellNeNeg1, hz, decide_alert_details_ne]
              · simp [hb]
              · simp

/-- Evaluation helper: one loop iteration of the demo environment with
`sendAlert = 'False'` and actual value 5, which lies inside the band:
the raw decision NoAlert is overridden to the Disabled code 2. -/
theorem demo_step_disabled :
    stepMetric (demoEnv ⟨"prophet", "False", "False"⟩ (some 5))
      ⟨[], [], none⟩ "kpi_a" =
      Except.ok
        ⟨[⟨"kpi a", 2, Cell.float 10, Cell.float 5, Cell.float 1, Cell.float 20,
            "No alert."⟩],
          [⟨demo_date, "kpi a", 10⟩],
          some ⟨Cell.float 10, Cell.float 1, Cell.float 20, 2, "No alert.",
            [⟨demo_date, 10, 1, 20⟩]⟩⟩ := by
  norm_num [stepMetric, metricRow, demoEnv, futureRows, demo_name_eval,
    demo_le_eval, demo_find_eval, do_nothing, clamp_pred, clamp_liminf,
    clamp_limsup, decide_alert, roundTo3, pyRound, cellNeNeg1, List.filter]

/-- C3 witness: the amended statement at the demo environment with
`sendAlert = 'False'` and actual value 5. -/
theorem c3_witness :
    ∃ r : AlertRow,
      (⟨[⟨"kpi a", 2, Cell.float 10, Cell.float 5, Cell.float 1, Cell.float 20,
          "No alert."⟩],
        [⟨demo_date, "kpi a", 10⟩],
        some ⟨Cell.float 10, Cell.float 1, Cell.float 20, 2, "No alert.",
          [⟨demo_date, 10, 1, 20⟩]⟩⟩ : RunState).alerts =
        (⟨[], [], none⟩ : RunState).alerts ++ [r] ∧
      r.alert = 2 ∧
      specState r = AlertState.Disabled ∧
      r.real = (if (demoEnv ⟨"prophet", "False", "False"⟩ (some 5)).isIntLast "kpi_a"
                  = true then Cell.int (pyInt 5)
                else Cell.float (roundTo3 5)) ∧
      r.metric = underscoreToSpace "kpi_a" :=
  c3_send_alert_disabled (demoEnv ⟨"prophet", "False", "False"⟩ (some 5))
    ⟨[], [], none⟩ "kpi_a" ⟨"prophet", "False", "False"⟩ _ 5 rfl rfl
    (Or.inl rfl) rfl rfl
    ⟨fun h => absurd h (by norm_num [demoEnv]),
     fun _ => by norm_num [roundTo3, pyRound]⟩
    demo_step_disabled

/-! ## Concrete two-metric runs (C1, C8)

The future-table block of `get_alerts_table` runs for every metric, not
only for the forecasting ones, and an unknown method name falls through
both dispatch branches without an error, so both behaviours are
demonstrated on explicit two-metric runs. -/

/-- The prediction table of the numeric metric of the C1 run: one row
before the evaluation date, the evaluation-date row, and one future row
with a negative prediction. -/
def c1_forecast : List PredRow :=
  [⟨⟨2024, 1, 29⟩, 3, 1, 6⟩, ⟨demo_date, 10, 1, 20⟩, ⟨⟨2024, 1, 31⟩, -2, -3, 4⟩]

/-- The C1 environment: `metric_a` uses prophet, `metric_b` uses the
constraint method, both with data present. -/
def c1Env : Env where
  date := demo_date
  limsup_alert := false
  dataAllNull := fun _ => false
  isIntLast := fun _ => false
  realOf := fun m => if m = "metric_b" then some 0 else some 5
  params := fun m =>
    if m = "metric_a" then some ⟨"prophet", "False", "True"⟩
    else if m = "metric_b" then some ⟨"constraint", "False", "True"⟩
    else none
  forecast := fun m => if m = "metric_a" then c1_forecast else []

def c1_rowA : AlertRow :=
  ⟨"metric a", 0, Cell.float 10, Cell.float 5, Cell.float 1, Cell.float 20,
    "No alert."⟩

def c1_rowB : AlertRow :=
  ⟨"metric b", 0, Cell.str "No", Cell.str "No", Cell.str "-", Cell.str "-",
    "No alert."⟩

def c1_futA : List FutureRow :=
  [⟨demo_date, "metric a", 10⟩, ⟨⟨2024, 1, 31⟩, "metric a", 0⟩]

def c1_futB : List FutureRow :=
  [⟨demo_date, "metric b", 10⟩, ⟨⟨2024, 1, 31⟩, "metric b", 0⟩]

def c1_carryA : Carry :=
  ⟨Cell.float 10, Cell.float 1, Cell.float 20, 0, "No alert.", c1_forecast⟩

def c1_st1 : RunState := ⟨[c1_rowA], c1_futA, some c1_carryA⟩

def c1_st2 : RunState :=
  ⟨[c1_rowA, c1_rowB], c1_futA ++ c1_futB,
    some ⟨Cell.str "No", Cell.str "-", Cell.str "-", 0, "No alert.", c1_forecast⟩⟩

theorem c1_find :
    c1_forecast.find? (fun r => decide (r.ds = demo_date)) =
      some ⟨demo_date, 10, 1, 20⟩ := by decide

theorem c1_name_a : underscoreToSpace "metric_a" = "metric a" := by decide

theorem c1_name_b : underscoreToSpace "metric_b" = "metric b" := by decide

theorem c1_future_a :
    futureRows demo_date "metric a" c1_forecast = c1_futA := by decide

theorem c1_future_b :
    futureRows demo_date "metric b" c1_forecast = c1_futB := by decide

theorem c1_real_a : c1Env.realOf "metric_a" = some 5 := by simp [c1Env]

theorem c1_real_b : c1Env.realOf "metric_b" = some 0 := by simp [c1Env]

theorem c1_params_a :
    c1Env.params "metric_a" = some ⟨"prophet", "False", "True"⟩ := by simp [c1Env]

theorem c1_params_b :
    c1Env.params "metric_b" = some ⟨"constraint", "False", "True"⟩ := by
  simp [c1Env]

theorem c1_forecast_a : c1Env.forecast "metric_a" = c1_forecast := by simp [c1Env]

theorem c1_null (m : String) : c1Env.dataAllNull m = false := rfl

theorem c1_int (m : String) : c1Env.isIntLast m = false := rfl

theorem c1_date : c1Env.date = demo_date := rfl

theorem c1_flag : c1Env.limsup_alert = false := rfl

theorem c1_step1 :
    stepMetric c1Env ⟨[], [], none⟩ "metric_a" = Except.ok c1_st1 := by
  simp [stepMetric, metricRow, c1_real_a, c1_params_a, c1_forecast_a,
    c1_null, c1_int, c1_date, c1_flag, c1_st1, c1_rowA, c1_carryA, c1_find,
    c1_name_a, c1_future_a, do_nothing, cellNeNeg1]
  norm_num [clamp_pred, clamp_liminf, clamp_limsup, decide_alert, roundTo3,
    pyRound]

theorem c1_step2 :
    stepMetric c1Env c1_st1 "metric_b" = Except.ok c1_st2 := by
  simp [stepMetric, metricRow, c1_real_b, c1_params_b, c1_null, c1_int,
    c1_date, c1_flag, c1_st1, c1_st2, c1_rowA, c1_rowB, c1_carryA, c1_name_b,
    c1_future_b, cellNeNeg1]

theorem c1_run :
    runMetrics c1Env ["metric_a", "metric_b"] = Except.ok c1_st2 := by
  simp [runMetrics, List.foldlM, c1_step1]
  exact c1_step2

/-- C1: the Forecast Table block is not restricted to forecasting-method
metrics.  On the run [prophet metric `metric_a`, constraint metric
`metric_b`], the numeric metric contributes exactly its clamped forward
rows, but the constraint metric then appends the same stale prediction
table again under its own name; and a run whose first metric uses the
constraint method aborts with a `NameError`, because no `pred_table`
variable exists when the future-table block runs. -/
theorem c1_constraint_future_rows :
    (get_alerts_table c1Env ["metric_a", "metric_b"] true).map Prod.snd =
      Except.ok (some (c1_futA ++ c1_futB)) ∧
    runMetrics c1Env ["metric_b"] =
      Except.error "NameError: name pred_table is not defined" := by
  constructor
  · rw [get_alerts_table, c1_run]
    rfl
  · simp [runMetrics, List.foldlM, stepMetric, metricRow, c1_real_b,
      c1_params_b, c1_null, cellNeNeg1]

/-- The C8 environment: `m_one` uses prophet and `m_two` an unknown method
name `gradient`; both have data present, with actual values 5 and 7. -/
def c8Env : Env where
  date := demo_date
  limsup_alert := false
  dataAllNull := fun _ => false
  isIntLast := fun _ => false
  realOf := fun m => if m = "m_two" then some 7 else some 5
  params := fun m =>
    if m = "m_one" then some ⟨"prophet", "False", "True"⟩
    else if m = "m_two" then some ⟨"gradient", "False", "True"⟩
    else none
  forecast := fun m => if m = "m_one" then [⟨demo_date, 10, 1, 20⟩] else []

theorem c8_name_one : underscoreToSpace "m_one" = "m one" := by decide

theorem c8_name_two : underscoreToSpace "m_two" = "m two" := by decide

theorem c8_future_one :
    futureRows demo_date "m one" [(⟨demo_date, 10, 1, 20⟩ : PredRow)] =
      [⟨demo_date, "m one", 10⟩] := by decide

theorem c8_future_two :
    futureRows demo_date "m two" [(⟨demo_date, 10, 1, 20⟩ : PredRow)] =
      [⟨demo_date, "m two", 10⟩] := by decide

def c8_st1 : RunState :=
  ⟨[⟨"m one", 0, Cell.float 10, Cell.float 5, Cell.float 1, Cell.float 20,
      "No alert."⟩],
    [⟨demo_date, "m one", 10⟩],
    some ⟨Cell.float 10, Cell.float 1, Cell.float 20, 0, "No alert.",
      [⟨demo_date, 10, 1, 20⟩]⟩⟩

def c8_st2 : RunState :=
  ⟨[⟨"m one", 0, Cell.float 10, Cell.float 5, Cell.float 1, Cell.float 20,
      "No alert."⟩,
    ⟨"m two", 0, Cell.float 10, Cell.float 7, Cell.float 1, Cell.float 20,
      "No alert."⟩],
    [⟨demo_date, "m one", 10⟩, ⟨demo_date, "m two", 10⟩],
    some ⟨Cell.float 10, Cell.float 1, Cell.float 20, 0, "No alert.",
      [⟨demo_date, 10, 1, 20⟩]⟩⟩

theorem c8_real_one : c8Env.realOf "m_one" = some 5 := by simp [c8Env]

theorem c8_real_two : c8Env.realOf "m_two" = some 7 := by simp [c8Env]

theorem c8_params_one :
    c8Env.params "m_one" = some ⟨"prophet", "False", "True"⟩ := by simp [c8Env]

theorem c8_params_two :
    c8Env.params "m_two" = some ⟨"gradient", "False", "True"⟩ := by simp [c8Env]

theorem c8_forecast_one :
    c8Env.forecast "m_one" = [⟨demo_date, 10, 1, 20⟩] := by simp [c8Env]

theorem c8_null (m : String) : c8Env.dataAllNull m = false := rfl

theorem c8_int (m : String) : c8Env.isIntLast m = false := rfl

theorem c8_date : c8Env.date = demo_date := rfl

theorem c8_flag : c8Env.limsup_alert = false := rfl

theorem c8_step1 :
    stepMetric c8Env ⟨[], [], none⟩ "m_one" = Except.ok c8_st1 := by
  simp [stepMetric, metricRow, c8_real_one, c8_params_one, c8_forecast_one,
    c8_null, c8_int, c8_date, c8_flag, c8_st1, demo_find_eval, c8_name_one,
    c8_future_one, do_nothing, cellNeNeg1]
  norm_num [clamp_pred, clamp_liminf, clamp_limsup, decide_alert, roundTo3,
    pyRound]

theorem c8_step2 :
    stepMetric c8Env c8_st1 "m_two" = Except.ok c8_st2 := by
  simp [stepMetric, metricRow, c8_real_two, c8_params_two, c8_null, c8_int,
    c8_date, c8_st1, c8_st2, c8_name_two, c8_future_two, cellNeNeg1]

/-- C8: a metric whose method name is not one of the three known variants
aborts the run only when it is the first metric (reading the never
assigned `is_alert` raises a `NameError`); at any later position the loop
silently produces a record for it that reuses the previous metric's
prediction, bounds, decision and details (only the actual value is fresh
and unrounded), and even appends the previous metric's forecast rows
under the unknown-method metric's name. -/
theorem c8_unknown_method :
    (runMetrics c8Env ["m_one", "m_two"]).map (fun st => (st.alerts, st.future)) =
      Except.ok
        ([⟨"m one", 0, Cell.float 10, Cell.float 5, Cell.float 1, Cell.float 20,
            "No alert."⟩,
          ⟨"m two", 0, Cell.float 10, Cell.float 7, Cell.float 1, Cell.float 20,
            "No alert."⟩],
         [⟨demo_date, "m one", 10⟩, ⟨demo_date, "m two", 10⟩]) ∧
    runMetrics c8Env ["m_two"] =
      Except.error "NameError: name is_alert is not defined" := by
  constructor
  · have h : runMetrics c8Env ["m_one", "m_two"] = Except.ok c8_st2 := by
      simp [runMetrics, List.foldlM, c8_step1]
      exact c8_step2
    rw [h]
    rfl
  · simp [runMetrics, List.foldlM, stepMetric, metricRow, c8_real_two,
      c8_params_two, c8_null, cellNeNeg1]

end Alerts
